import Mathlib

/-!
# Verification of `GridIndex2D` (grid_index.h)

Shallow embedding of the uniform-grid 2D spatial index from
`src/include/grid_index.h`.  The coordinate template parameter `T`
(float or double in the C++ source) is modelled by `ℚ`; the C++ `int`
cell indices are modelled by `Int` (the clamping logic keeps every
index that reaches a bucket access small, which is claim C9); `size_t`
point identifiers are modelled by `Nat`; the bucket array
`std::vector<std::vector<size_t>>` is a `List (List Nat)`.
Construction, which throws `std::invalid_argument`, returns `Except`.
-/

attribute [local semireducible] Rat.add Rat.sub Rat.mul Rat.inv

/-- The single error kind: construction throws `std::invalid_argument`. -/
inductive GridError where
  | InvalidParameter (msg : String) : GridError
deriving DecidableEq, Repr

/-- State of a `GridIndex2D<T>` object: the six stored bounds, the derived
dimensions `nx_`, `ny_`, and the flat bucket array `grid_` (`grid_[j*nx + i]`). -/
structure GridIndex2D where
  x_start : ℚ
  x_end : ℚ
  x_step : ℚ
  y_start : ℚ
  y_end : ℚ
  y_step : ℚ
  nx : Int
  ny : Int
  grid : List (List Nat)
deriving DecidableEq, Repr

/-- The constructor `GridIndex2D(x_start, x_end, x_step, y_start, y_end, y_step)`:
validates the parameters, computes `nx_ = ceil((x_end-x_start)/x_step)`,
`ny_ = ceil((y_end-y_start)/y_step)` and allocates `nx_*ny_` empty buckets. -/
def mkGridIndex2D (x_start x_end x_step y_start y_end y_step : ℚ) :
    Except GridError GridIndex2D :=
  if x_step ≤ 0 ∨ y_step ≤ 0 then
    .error (.InvalidParameter "Step values must be positive")
  else if x_start ≥ x_end ∨ y_start ≥ y_end then
    .error (.InvalidParameter "Start must be less than end")
  else
    .ok { x_start := x_start, x_end := x_end, x_step := x_step,
          y_start := y_start, y_end := y_end, y_step := y_step,
          nx := ⌈(x_end - x_start) / x_step⌉,
          ny := ⌈(y_end - y_start) / y_step⌉,
          grid := List.replicate
            (⌈(x_end - x_start) / x_step⌉ * ⌈(y_end - y_start) / y_step⌉).toNat [] }

/-- `grid_[k].push_back(idx)`: append `idx` to the bucket at flat position `k`,
leaving every other bucket unchanged. -/
def appendAt : List (List Nat) → Nat → Nat → List (List Nat)
  | [], _, _ => []
  | b :: bs, 0, idx => (b ++ [idx]) :: bs
  | b :: bs, Nat.succ k, idx => b :: appendAt bs k idx

/-- `n` consecutive integers starting at `a`. -/
def intRangeAux (a : Int) : Nat → List Int
  | 0 => []
  | Nat.succ n => a :: intRangeAux (a + 1) n

/-- `for (int v = a; v <= b; ++v)`: the list of loop indices `a, a+1, …, b`
(empty when `b < a`, matching the skipped loop). -/
def intRange (a b : Int) : List Int :=
  intRangeAux a (b + 1 - a).toNat

namespace GridIndex2D

/-- `get_cell_x`: `floor((x - x_start_) / x_step_)` clamped into `[0, nx_-1]`
via `std::max(0, std::min(i, nx_ - 1))`. -/
def get_cell_x (g : GridIndex2D) (x : ℚ) : Int :=
  max 0 (min ⌊(x - g.x_start) / g.x_step⌋ (g.nx - 1))

/-- `get_cell_y`: `floor((y - y_start_) / y_step_)` clamped into `[0, ny_-1]`. -/
def get_cell_y (g : GridIndex2D) (y : ℚ) : Int :=
  max 0 (min ⌊(y - g.y_start) / g.y_step⌋ (g.ny - 1))

/-- `get_cell_id(i, j) = j * nx_ + i`: flat bucket position of cell `(i, j)`. -/
def get_cell_id (g : GridIndex2D) (i j : Int) : Int :=
  j * g.nx + i

/-- `insert(x, y, index)`: compute the clamped cell and push `index` onto its
bucket. -/
def insert (g : GridIndex2D) (x y : ℚ) (index : Nat) : GridIndex2D :=
  { g with grid :=
      appendAt g.grid (g.get_cell_id (g.get_cell_x x) (g.get_cell_y y)).toNat index }

/-- One axis of `get_cell_range` (the C++ body performs this computation
inline, once for x and once for y): order the two boundary coordinates,
take raw floor cell indices, bump the minimum up when `include_min` is
false and the lower boundary sits exactly on a cell boundary, bump the
maximum down symmetrically for `include_max`, then clamp both into
`[0, n-1]`.  Returns `(k_min, k_max)`. -/
def axis_cell_range (start step : ℚ) (n : Int) (v1 v2 : ℚ)
    (include_min include_max : Bool) : Int × Int :=
  (max 0 (min
    (if include_min = false ∧
        ((if v1 > v2 then v2 else v1) - start) / step =
          ((⌊((if v1 > v2 then v2 else v1) - start) / step⌋ : Int) : ℚ)
     then ⌊((if v1 > v2 then v2 else v1) - start) / step⌋ + 1
     else ⌊((if v1 > v2 then v2 else v1) - start) / step⌋)
    (n - 1)),
   max 0 (min
    (if include_max = false ∧
        ((if v1 > v2 then v1 else v2) - start) / step =
          ((⌊((if v1 > v2 then v1 else v2) - start) / step⌋ : Int) : ℚ)
     then ⌊((if v1 > v2 then v1 else v2) - start) / step⌋ - 1
     else ⌊((if v1 > v2 then v1 else v2) - start) / step⌋)
    (n - 1)))

/-- `get_cell_range(x1, x2, y1, y2, …)`: the inclusive cell-index rectangle
`((i_min, i_max), (j_min, j_max))` traversed by every query variant. -/
def get_cell_range (g : GridIndex2D) (x1 x2 y1 y2 : ℚ)
    (include_min include_max : Bool) : (Int × Int) × (Int × Int) :=
  (axis_cell_range g.x_start g.x_step g.nx x1 x2 include_min include_max,
   axis_cell_range g.y_start g.y_step g.ny y1 y2 include_min include_max)

/-- `query_box`: collect, for `j` from `j_min` to `j_max` and `i` from `i_min`
to `i_max`, the contents of bucket `grid_[j*nx + i]` into a fresh vector. -/
def query_box (g : GridIndex2D) (x1 x2 y1 y2 : ℚ)
    (include_min include_max : Bool) : List Nat :=
  (intRange (g.get_cell_range x1 x2 y1 y2 include_min include_max).2.1
            (g.get_cell_range x1 x2 y1 y2 include_min include_max).2.2).flatMap fun j =>
    (intRange (g.get_cell_range x1 x2 y1 y2 include_min include_max).1.1
              (g.get_cell_range x1 x2 y1 y2 include_min include_max).1.2).flatMap fun i =>
      g.grid.getD (g.get_cell_id i j).toNat []

/-- `query_box_no_alloc`: clear `result` unless `append_results`, then append
the same traversal as `query_box`; the returned list is the final contents of
the caller-supplied `result` vector. -/
def query_box_no_alloc (g : GridIndex2D) (x1 x2 y1 y2 : ℚ) (result : List Nat)
    (append_results include_min include_max : Bool) : List Nat :=
  (if append_results = false then [] else result) ++
  ((intRange (g.get_cell_range x1 x2 y1 y2 include_min include_max).2.1
             (g.get_cell_range x1 x2 y1 y2 include_min include_max).2.2).flatMap fun j =>
    (intRange (g.get_cell_range x1 x2 y1 y2 include_min include_max).1.1
              (g.get_cell_range x1 x2 y1 y2 include_min include_max).1.2).flatMap fun i =>
      g.grid.getD (g.get_cell_id i j).toNat [])

/-- `query_box_callback`: the same traversal, invoking `callback` once per
identifier; the callback is modelled as a fold over an accumulator of
arbitrary type `β`, so the sequence of invocations is fully captured. -/
def query_box_callback {β : Type} (g : GridIndex2D) (x1 x2 y1 y2 : ℚ)
    (callback : β → Nat → β) (init : β) (include_min include_max : Bool) : β :=
  (intRange (g.get_cell_range x1 x2 y1 y2 include_min include_max).2.1
            (g.get_cell_range x1 x2 y1 y2 include_min include_max).2.2).foldl (fun acc j =>
    (intRange (g.get_cell_range x1 x2 y1 y2 include_min include_max).1.1
              (g.get_cell_range x1 x2 y1 y2 include_min include_max).1.2).foldl (fun acc2 i =>
      (g.grid.getD (g.get_cell_id i j).toNat []).foldl callback acc2) acc) init

/-- `clear()`: empty every bucket; bounds and dimensions are untouched. -/
def clear (g : GridIndex2D) : GridIndex2D :=
  { g with grid := g.grid.map fun _ => [] }

/-- `get_num_cells()`: `grid_.size()`. -/
def get_num_cells (g : GridIndex2D) : Nat :=
  g.grid.length

/-- `get_num_points()`: the sum of all bucket sizes. -/
def get_num_points (g : GridIndex2D) : Nat :=
  (g.grid.map List.length).sum

/-- `get_dimensions()`: `(nx_, ny_)`. -/
def get_dimensions (g : GridIndex2D) : Int × Int :=
  (g.nx, g.ny)

/-- `get_bounds()`: `(x_start_, x_end_, y_start_, y_end_)`. -/
def get_bounds (g : GridIndex2D) : ℚ × ℚ × ℚ × ℚ :=
  (g.x_start, g.x_end, g.y_start, g.y_end)

/-- Well-formedness of a grid state: positive dimensions and a bucket array
of the allocated size `nx*ny`.  Established by the constructor and preserved
by every operation. -/
def WF (g : GridIndex2D) : Prop :=
  1 ≤ g.nx ∧ 1 ≤ g.ny ∧ g.grid.length = (g.nx * g.ny).toNat

instance (g : GridIndex2D) : Decidable g.WF := by
  unfold WF; infer_instance

end GridIndex2D

/-- Fold a list of `(x, y, id)` triples into the grid by repeated `insert`. -/
def insertAll (g : GridIndex2D) (pts : List (ℚ × ℚ × Nat)) : GridIndex2D :=
  pts.foldl (fun h p => h.insert p.1 p.2.1 p.2.2) g

/-- Extract the grid from a successful construction (used only to name
concrete test grids). -/
def mkOk (x_start x_end x_step y_start y_end y_step : ℚ) : GridIndex2D :=
  match mkGridIndex2D x_start x_end x_step y_start y_end y_step with
  | .ok g => g
  | .error _ => ⟨0, 0, 0, 0, 0, 0, 0, 0, []⟩

/-- The grid of the spec's concrete edge-flag example: bounds `[0,10)`,
step 1 on both axes. -/
def g10 : GridIndex2D := mkOk 0 10 1 0 10 1


/-! ## Generic helper lemmas about the loop and bucket primitives -/

lemma intRange_eq_nil {a b : Int} (h : b < a) : intRange a b = [] := by
  unfold intRange
  have : (b + 1 - a).toNat = 0 := by omega
  rw [this]
  rfl

lemma mem_intRangeAux {a i : Int} {n : Nat} :
    i ∈ intRangeAux a n ↔ a ≤ i ∧ i < a + n := by
  induction n generalizing a with
  | zero => simp [intRangeAux]
  | succ n ih => simp [intRangeAux, ih]; omega

lemma mem_intRange {a b i : Int} : i ∈ intRange a b ↔ a ≤ i ∧ i ≤ b := by
  unfold intRange
  rw [mem_intRangeAux]
  omega

lemma flatMap_const_nil (l : List Int) : (l.flatMap fun _ => ([] : List Nat)) = [] := by
  induction l with
  | nil => rfl
  | cons a l ih => simp only [List.flatMap_cons, ih, List.nil_append]

lemma getD_map_nil (l : List (List Nat)) (k : Nat) :
    (l.map fun _ => ([] : List Nat)).getD k [] = [] := by
  induction l generalizing k with
  | nil => rfl
  | cons b bs ih => cases k <;> simp [List.getD, ih]

lemma appendAt_length (l : List (List Nat)) (k idx : Nat) :
    (appendAt l k idx).length = l.length := by
  induction l generalizing k with
  | nil => rfl
  | cons b bs ih => cases k <;> simp [appendAt, ih]

lemma appendAt_getD_same (l : List (List Nat)) (k idx : Nat) (hk : k < l.length) :
    (appendAt l k idx).getD k [] = l.getD k [] ++ [idx] := by
  induction l generalizing k with
  | nil => simp at hk
  | cons b bs ih =>
    cases k with
    | zero => simp [appendAt]
    | succ m =>
      simp only [appendAt, List.getD_cons_succ]
      exact ih m (by simpa using hk)

lemma appendAt_getD_ne (l : List (List Nat)) (k idx m : Nat) (hm : m ≠ k) :
    (appendAt l k idx).getD m [] = l.getD m [] := by
  induction l generalizing k m with
  | nil => rfl
  | cons b bs ih =>
    cases k with
    | zero => cases m with
      | zero => exact absurd rfl hm
      | succ m2 => simp [appendAt]
    | succ k2 => cases m with
      | zero => simp [appendAt]
      | succ m2 => simpa [appendAt] using ih k2 m2 (by omega)

lemma appendAt_sum (l : List (List Nat)) (k idx : Nat) (hk : k < l.length) :
    ((appendAt l k idx).map List.length).sum = (l.map List.length).sum + 1 := by
  induction l generalizing k with
  | nil => simp at hk
  | cons b bs ih =>
    cases k with
    | zero => simp [appendAt]; omega
    | succ m =>
      have := ih m (by simpa using hk)
      simp [appendAt, this]
      omega

lemma foldl_flatMap {α β : Type} (l : List α) (f : α → List Nat)
    (cb : β → Nat → β) (init : β) :
    (l.flatMap f).foldl cb init = l.foldl (fun acc a => (f a).foldl cb acc) init := by
  induction l generalizing init with
  | nil => rfl
  | cons a l ih => simp [List.flatMap_cons, List.foldl_append, ih]

lemma foldl_push (l : List Nat) (acc : List Nat) :
    l.foldl (fun a x => a ++ [x]) acc = acc ++ l := by
  induction l generalizing acc with
  | nil => simp
  | cons x l ih => simp [List.foldl_cons, ih]


/-! ## Characterizations of the operations -/

namespace GridIndex2D

/-- `query_box_no_alloc` is `query_box` prefixed by the (possibly cleared)
previous contents of the result vector. -/
lemma query_box_no_alloc_eq (g : GridIndex2D) (x1 x2 y1 y2 : ℚ) (res : List Nat)
    (ap im ix : Bool) :
    g.query_box_no_alloc x1 x2 y1 y2 res ap im ix =
      (if ap = false then [] else res) ++ g.query_box x1 x2 y1 y2 im ix := rfl

/-- `query_box_callback` folds its callback over exactly the identifier
sequence that `query_box` returns. -/
lemma query_box_callback_eq {β : Type} (g : GridIndex2D) (x1 x2 y1 y2 : ℚ)
    (cb : β → Nat → β) (init : β) (im ix : Bool) :
    g.query_box_callback x1 x2 y1 y2 cb init im ix =
      (g.query_box x1 x2 y1 y2 im ix).foldl cb init := by
  unfold query_box_callback query_box
  rw [foldl_flatMap]
  congr 1
  funext acc j
  rw [foldl_flatMap]

/-- If the resolved cell range is inverted on either axis, the traversal is
skipped and `query_box` returns the empty list. -/
lemma query_box_eq_nil_of_inverted (g : GridIndex2D) (x1 x2 y1 y2 : ℚ) (im ix : Bool)
    (h : (g.get_cell_range x1 x2 y1 y2 im ix).1.2 < (g.get_cell_range x1 x2 y1 y2 im ix).1.1 ∨
         (g.get_cell_range x1 x2 y1 y2 im ix).2.2 < (g.get_cell_range x1 x2 y1 y2 im ix).2.1) :
    g.query_box x1 x2 y1 y2 im ix = [] := by
  unfold query_box
  rcases h with h | h
  · rw [intRange_eq_nil h]
    simp only [List.flatMap_nil]
    exact flatMap_const_nil _
  · rw [intRange_eq_nil h]
    rfl

/-- Unfolding a successful construction: every field of the resulting grid,
and the fact that the parameters passed validation. -/
lemma mk_ok_fields {a b c d e f : ℚ} {g : GridIndex2D}
    (h : mkGridIndex2D a b c d e f = .ok g) :
    g.x_start = a ∧ g.x_end = b ∧ g.x_step = c ∧
    g.y_start = d ∧ g.y_end = e ∧ g.y_step = f ∧
    g.nx = ⌈(b - a) / c⌉ ∧ g.ny = ⌈(e - d) / f⌉ ∧
    g.grid = List.replicate (g.nx * g.ny).toNat [] ∧
    0 < c ∧ 0 < f ∧ a < b ∧ d < e := by
  unfold mkGridIndex2D at h
  split_ifs at h with h1 h2
  obtain rfl := Except.ok.inj h
  simp only [not_or, not_le] at h1 h2
  exact ⟨rfl, rfl, rfl, rfl, rfl, rfl, rfl, rfl, rfl, h1.1, h1.2, h2.1, h2.2⟩

/-- The constructor establishes well-formedness. -/
lemma WF_mk {a b c d e f : ℚ} {g : GridIndex2D}
    (h : mkGridIndex2D a b c d e f = .ok g) : g.WF := by
  obtain ⟨-, -, -, -, -, -, hnx, hny, hgrid, hc, hf, hab, hde⟩ := mk_ok_fields h
  have h1 : 1 ≤ g.nx := by
    rw [hnx]
    have : (0 : ℚ) < (b - a) / c := div_pos (by linarith) hc
    have := Int.ceil_pos.mpr this
    omega
  have h2 : 1 ≤ g.ny := by
    rw [hny]
    have : (0 : ℚ) < (e - d) / f := div_pos (by linarith) hf
    have := Int.ceil_pos.mpr this
    omega
  exact ⟨h1, h2, by rw [hgrid, List.length_replicate]⟩

/-- Every flat bucket position `j*nx + i` built from clamped cell indices is
a valid position in the bucket array. -/
lemma get_cell_id_valid {g : GridIndex2D} (hg : g.WF) {i j : Int}
    (hi0 : 0 ≤ i) (hi1 : i ≤ g.nx - 1) (hj0 : 0 ≤ j) (hj1 : j ≤ g.ny - 1) :
    0 ≤ g.get_cell_id i j ∧ (g.get_cell_id i j).toNat < g.grid.length := by
  obtain ⟨hnx, hny, hlen⟩ := hg
  unfold get_cell_id
  have hup : j * g.nx + i < g.nx * g.ny := by nlinarith
  have hlo : 0 ≤ j * g.nx + i := by positivity
  rw [hlen]
  omega

/-- Both components of a clamped axis range lie in `[0, n-1]`. -/
lemma axis_cell_range_bounds (start step : ℚ) (n : Int) (hn : 1 ≤ n)
    (v1 v2 : ℚ) (im ix : Bool) :
    0 ≤ (axis_cell_range start step n v1 v2 im ix).1 ∧
    (axis_cell_range start step n v1 v2 im ix).1 ≤ n - 1 ∧
    0 ≤ (axis_cell_range start step n v1 v2 im ix).2 ∧
    (axis_cell_range start step n v1 v2 im ix).2 ≤ n - 1 := by
  unfold axis_cell_range
  dsimp only
  omega

end GridIndex2D

/-- Ordering the two boundary coordinates is symmetric in the arguments:
the smaller one. -/
lemma if_swap_lo (v1 v2 : ℚ) :
    (if v2 > v1 then v1 else v2) = (if v1 > v2 then v2 else v1) := by
  rcases lt_trichotomy v1 v2 with h | rfl | h
  · rw [if_pos h, if_neg (asymm h)]
  · rfl
  · rw [if_neg (asymm h), if_pos h]

/-- Ordering the two boundary coordinates is symmetric in the arguments:
the larger one. -/
lemma if_swap_hi (v1 v2 : ℚ) :
    (if v2 > v1 then v2 else v1) = (if v1 > v2 then v1 else v2) := by
  rcases lt_trichotomy v1 v2 with h | rfl | h
  · rw [if_pos h, if_neg (asymm h)]
  · rfl
  · rw [if_neg (asymm h), if_pos h]

namespace GridIndex2D

/-- Swapping the two boundary coordinates of an axis does not change its
resolved cell range (the routine sorts them first). -/
lemma axis_cell_range_swap (start step : ℚ) (n : Int) (v1 v2 : ℚ) (im ix : Bool) :
    axis_cell_range start step n v2 v1 im ix =
      axis_cell_range start step n v1 v2 im ix := by
  unfold axis_cell_range
  rw [if_swap_lo, if_swap_hi]

/-- Swapping the x corners does not change the resolved cell rectangle. -/
lemma get_cell_range_swap_x (g : GridIndex2D) (x1 x2 y1 y2 : ℚ) (im ix : Bool) :
    g.get_cell_range x2 x1 y1 y2 im ix = g.get_cell_range x1 x2 y1 y2 im ix := by
  unfold get_cell_range
  rw [axis_cell_range_swap g.x_start g.x_step g.nx x1 x2 im ix]

/-- Swapping the y corners does not change the resolved cell rectangle. -/
lemma get_cell_range_swap_y (g : GridIndex2D) (x1 x2 y1 y2 : ℚ) (im ix : Bool) :
    g.get_cell_range x1 x2 y2 y1 im ix = g.get_cell_range x1 x2 y1 y2 im ix := by
  unfold get_cell_range
  rw [axis_cell_range_swap g.y_start g.y_step g.ny y1 y2 im ix]

/-- The clamped cell index of an inserted x coordinate lies in `[0, nx-1]`. -/
lemma get_cell_x_bounds (g : GridIndex2D) (h : 1 ≤ g.nx) (x : ℚ) :
    0 ≤ g.get_cell_x x ∧ g.get_cell_x x ≤ g.nx - 1 := by
  unfold get_cell_x
  omega

/-- The clamped cell index of an inserted y coordinate lies in `[0, ny-1]`. -/
lemma get_cell_y_bounds (g : GridIndex2D) (h : 1 ≤ g.ny) (y : ℚ) :
    0 ≤ g.get_cell_y y ∧ g.get_cell_y y ≤ g.ny - 1 := by
  unfold get_cell_y
  omega

/-- The bucket position written by `insert` is valid. -/
lemma insert_pos_valid {g : GridIndex2D} (hg : g.WF) (x y : ℚ) :
    (g.get_cell_id (g.get_cell_x x) (g.get_cell_y y)).toNat < g.grid.length := by
  obtain ⟨hx0, hx1⟩ := get_cell_x_bounds g hg.1 x
  obtain ⟨hy0, hy1⟩ := get_cell_y_bounds g hg.2.1 y
  exact (get_cell_id_valid hg hx0 hx1 hy0 hy1).2

/-- `insert` preserves well-formedness. -/
lemma WF_insert {g : GridIndex2D} (hg : g.WF) (x y : ℚ) (idx : Nat) :
    (g.insert x y idx).WF := by
  obtain ⟨h1, h2, h3⟩ := hg
  exact ⟨h1, h2, by unfold insert; rw [appendAt_length]; exact h3⟩

/-- `insert` grows the total point count by exactly one. -/
lemma get_num_points_insert (g : GridIndex2D) (hg : g.WF) (x y : ℚ) (idx : Nat) :
    (g.insert x y idx).get_num_points = g.get_num_points + 1 := by
  unfold insert get_num_points
  exact appendAt_sum _ _ _ (insert_pos_valid hg x y)

/-- A freshly constructed grid holds no points. -/
lemma get_num_points_mk {a b c d e f : ℚ} {g : GridIndex2D}
    (h : mkGridIndex2D a b c d e f = .ok g) : g.get_num_points = 0 := by
  obtain ⟨-, -, -, -, -, -, -, -, hgrid, -⟩ := mk_ok_fields h
  unfold get_num_points
  rw [hgrid]
  simp

end GridIndex2D

/-- Inserting a list of points on top of any well-formed grid adds exactly
one stored identifier per point. -/
lemma get_num_points_insertAll (pts : List (ℚ × ℚ × Nat)) :
    ∀ g : GridIndex2D, g.WF →
      (insertAll g pts).get_num_points = g.get_num_points + pts.length := by
  induction pts with
  | nil => intro g hg; simp [insertAll]
  | cons p pts ih =>
    intro g hg
    have step : insertAll g (p :: pts) = insertAll (g.insert p.1 p.2.1 p.2.2) pts := rfl
    rw [step, ih _ (GridIndex2D.WF_insert hg _ _ _),
        GridIndex2D.get_num_points_insert g hg]
    simp only [List.length_cons]
    omega

namespace GridIndex2D

/-- After `clear`, the total point count is zero. -/
lemma get_num_points_clear (g : GridIndex2D) : g.clear.get_num_points = 0 := by
  unfold clear get_num_points
  simp only [List.map_map]
  apply List.sum_eq_zero
  intro x hx
  obtain ⟨a, -, ha⟩ := List.mem_map.mp hx
  simpa using ha.symm

/-- After `clear`, `query_box` returns the empty list for every rectangle and
flag combination. -/
lemma query_box_clear (g : GridIndex2D) (x1 x2 y1 y2 : ℚ) (im ix : Bool) :
    g.clear.query_box x1 x2 y1 y2 im ix = [] := by
  unfold query_box clear
  simp only [getD_map_nil, flatMap_const_nil]

/-- When both boundaries of an axis are the same coordinate sitting exactly
on cell boundary `k` with `0 ≤ k ≤ n-1` and `n ≥ 2`, excluding both edges
makes the clamped range inverted (`max < min`). -/
lemma axis_cell_range_excl_inverted {start step : ℚ} {n : Int} {v : ℚ} {k : Int}
    (hn : 2 ≤ n) (hk0 : 0 ≤ k) (hk1 : k ≤ n - 1)
    (hv : (v - start) / step = (k : ℚ)) :
    (axis_cell_range start step n v v false false).2 <
      (axis_cell_range start step n v v false false).1 := by
  unfold axis_cell_range
  rw [if_neg (lt_irrefl v), hv, Int.floor_intCast, if_pos ⟨rfl, rfl⟩, if_pos ⟨rfl, rfl⟩]
  dsimp only
  omega

end GridIndex2D

/-! ## The claims -/

/-- Grid `[0,10)²`, step 1, holding id 0 at (9.5, 9.5) — cell (9, 9). -/
def gC1 : GridIndex2D := g10.insert (19/2) (19/2) 0

/-- Grid `[0,10)²`, step 1, holding id 0 at (5,5) and id 1 at (6,6). -/
def gC2 : GridIndex2D := (g10.insert 5 5 0).insert 6 6 1

/-- Grid `[0,10)²`, step 1, holding id 0 at (0.5, 0.5) — cell (0, 0). -/
def gC10 : GridIndex2D := g10.insert (1/2) (1/2) 0

/-- C1, counterexample: on the `[0,10)` step-1 grid holding id 0 at
(9.5, 9.5), the query with `x1 = x2 = 10` — both x boundaries on the same
cell boundary, since `(10 - x_start)/x_step` is the integer 10 — and
`include_min = include_max = false` returns `[0]`, not the empty result:
clamping the adjusted indices `i_min = 11`, `i_max = 9` into `[0, 9]`
collapses both to 9, so cell (9, 9) is still visited. -/
theorem C1_counterexample :
    ((10 : ℚ) - gC1.x_start) / gC1.x_step =
      ((⌊((10 : ℚ) - gC1.x_start) / gC1.x_step⌋ : Int) : ℚ) ∧
    gC1.query_box 10 10 (19/2) (19/2) false false = [0] := by
  constructor
  · decide
  · decide

/-- C1, amended: when both boundaries of one axis coincide with the same
cell boundary whose index `k` lies within the grid (`0 ≤ k ≤ n-1`) and that
axis has at least two cells, a query with `include_min = include_max = false`
resolves to a cell range whose min exceeds its max on that axis, and every
query variant returns an empty result — the traversal loop is skipped
entirely. -/
theorem C1_excluded_boundary_empty (g : GridIndex2D) (x1 x2 y1 y2 : ℚ)
    (res : List Nat)
    (h : (x1 = x2 ∧ 2 ≤ g.nx ∧
            ∃ k : Int, 0 ≤ k ∧ k ≤ g.nx - 1 ∧ (x1 - g.x_start) / g.x_step = (k : ℚ)) ∨
         (y1 = y2 ∧ 2 ≤ g.ny ∧
            ∃ k : Int, 0 ≤ k ∧ k ≤ g.ny - 1 ∧ (y1 - g.y_start) / g.y_step = (k : ℚ))) :
    ((g.get_cell_range x1 x2 y1 y2 false false).1.2 <
       (g.get_cell_range x1 x2 y1 y2 false false).1.1 ∨
     (g.get_cell_range x1 x2 y1 y2 false false).2.2 <
       (g.get_cell_range x1 x2 y1 y2 false false).2.1) ∧
    g.query_box x1 x2 y1 y2 false false = [] ∧
    g.query_box_no_alloc x1 x2 y1 y2 res false false false = [] ∧
    g.query_box_callback x1 x2 y1 y2 (fun acc i => acc ++ [i]) ([] : List Nat)
      false false = [] := by
  have hinv : (g.get_cell_range x1 x2 y1 y2 false false).1.2 <
       (g.get_cell_range x1 x2 y1 y2 false false).1.1 ∨
     (g.get_cell_range x1 x2 y1 y2 false false).2.2 <
       (g.get_cell_range x1 x2 y1 y2 false false).2.1 := by
    rcases h with ⟨heq, hn, k, hk0, hk1, hv⟩ | ⟨heq, hn, k, hk0, hk1, hv⟩
    · subst heq
      exact Or.inl (GridIndex2D.axis_cell_range_excl_inverted hn hk0 hk1 hv)
    · subst heq
      exact Or.inr (GridIndex2D.axis_cell_range_excl_inverted hn hk0 hk1 hv)
  have hq := GridIndex2D.query_box_eq_nil_of_inverted g x1 x2 y1 y2 false false hinv
  refine ⟨hinv, hq, ?_, ?_⟩
  · rw [GridIndex2D.query_box_no_alloc_eq, hq]
    rfl
  · rw [GridIndex2D.query_box_callback_eq, hq]
    rfl

/-- C1, witness: on the `[0,10)` step-1 grid, the query with
`x1 = x2 = 5` (cell boundary index 5, inside `[0, 9]`) and both edges
excluded returns the empty result. -/
theorem C1_witness :
    ((5 : ℚ) = 5 ∧ 2 ≤ g10.nx ∧
       ∃ k : Int, 0 ≤ k ∧ k ≤ g10.nx - 1 ∧ ((5 : ℚ) - g10.x_start) / g10.x_step = (k : ℚ)) ∧
    g10.query_box 5 5 3 4 false false = [] := by
  have hh : (5 : ℚ) = 5 ∧ 2 ≤ g10.nx ∧
      ∃ k : Int, 0 ≤ k ∧ k ≤ g10.nx - 1 ∧ ((5 : ℚ) - g10.x_start) / g10.x_step = (k : ℚ) :=
    ⟨rfl, by decide, 5, by decide, by decide, by decide⟩
  exact ⟨hh, (C1_excluded_boundary_empty g10 5 5 3 4 [] (Or.inl hh)).2.1⟩

/-- C2: on the `[0,10)` step-1 grid with id 0 at (5,5) and id 1 at (6,6),
the four edge-flag combinations of `query_box(5,6,5,6)` return
`{0,1}`, `{}`, `{0}` and `{1}` respectively. -/
theorem C2_edge_flag_example :
    gC2.query_box 5 6 5 6 true true = [0, 1] ∧
    gC2.query_box 5 6 5 6 false false = [] ∧
    gC2.query_box 5 6 5 6 true false = [0] ∧
    gC2.query_box 5 6 5 6 false true = [1] := by
  refine ⟨by decide, by decide, by decide, by decide⟩

/-- C10: a query rectangle lying entirely outside the grid bounds
(`x2 = -4 < 0 = x_start`) still returns the contents of the nearest edge
cell — here id 0 stored in cell (0,0) — because the raw cell indices are
clamped into the grid regardless of intersection. -/
theorem C10_outside_rectangle_nonempty :
    (-4 : ℚ) < gC10.x_start ∧
    gC10.query_box (-5) (-4) (-5) (-4) true true = [0] := by
  constructor
  · decide
  · decide

/-- C3: for every grid state, query rectangle and flag combination, the
three query variants produce the identical identifier sequence:
`query_box_no_alloc` with `append_results = false` returns exactly
`query_box`'s list, and `query_box_callback` invokes its callback once per
element of that same list in the same order (collecting the callback
arguments reproduces the list). -/
theorem C3_variants_identical (g : GridIndex2D) (x1 x2 y1 y2 : ℚ)
    (im ix : Bool) (res : List Nat) :
    g.query_box_no_alloc x1 x2 y1 y2 res false im ix =
      g.query_box x1 x2 y1 y2 im ix ∧
    g.query_box_callback x1 x2 y1 y2 (fun acc i => acc ++ [i]) ([] : List Nat) im ix =
      g.query_box x1 x2 y1 y2 im ix := by
  constructor
  · rw [GridIndex2D.query_box_no_alloc_eq]
    rfl
  · rw [GridIndex2D.query_box_callback_eq]
    exact (foldl_push _ _).trans (List.nil_append _)

/-- C4: construction fails with `InvalidParameter` exactly when
`x_step ≤ 0`, `y_step ≤ 0`, `x_start ≥ x_end` or `y_start ≥ y_end`; for all
other (finite) inputs it succeeds.  Every other operation is a total
function of the grid state and cannot fail. -/
theorem C4_invalid_parameter_iff (a b c d e f : ℚ) :
    ((∃ msg, mkGridIndex2D a b c d e f = .error (.InvalidParameter msg)) ↔
      (c ≤ 0 ∨ f ≤ 0 ∨ a ≥ b ∨ d ≥ e)) ∧
    (¬(c ≤ 0 ∨ f ≤ 0 ∨ a ≥ b ∨ d ≥ e) →
      ∃ g, mkGridIndex2D a b c d e f = .ok g) := by
  unfold mkGridIndex2D
  constructor
  · constructor
    · rintro ⟨msg, hmsg⟩
      split_ifs at hmsg with h1 h2
      · tauto
      · tauto
    · intro hcond
      split_ifs with h1 h2
      · exact ⟨_, rfl⟩
      · exact ⟨_, rfl⟩
      · exact absurd hcond (by tauto)
  · intro hcond
    split_ifs with h1 h2
    · exact absurd (by tauto : (c ≤ 0 ∨ f ≤ 0 ∨ a ≥ b ∨ d ≥ e)) hcond
    · exact absurd (by tauto : (c ≤ 0 ∨ f ≤ 0 ∨ a ≥ b ∨ d ≥ e)) hcond
    · exact ⟨_, rfl⟩

/-- C4, witness: the parameters `(0, 10, 1, 0, 10, 1)` violate none of the
conditions and construction succeeds. -/
theorem C4_witness :
    ¬((1 : ℚ) ≤ 0 ∨ (1 : ℚ) ≤ 0 ∨ (0 : ℚ) ≥ 10 ∨ (0 : ℚ) ≥ 10) ∧
    (∃ g, mkGridIndex2D 0 10 1 0 10 1 = .ok g) := by
  have hc : ¬((1 : ℚ) ≤ 0 ∨ (1 : ℚ) ≤ 0 ∨ (0 : ℚ) ≥ 10 ∨ (0 : ℚ) ≥ 10) := by decide
  exact ⟨hc, (C4_invalid_parameter_iff 0 10 1 0 10 1).2 hc⟩

/-- C5: a successfully constructed grid has
`dimensions() = (ceil((x_end-x_start)/x_step), ceil((y_end-y_start)/y_step))`,
both components at least 1, and `count_cells() = nx * ny`. -/
theorem C5_dimensions_and_cells (a b c d e f : ℚ) (g : GridIndex2D)
    (h : mkGridIndex2D a b c d e f = .ok g) :
    g.get_dimensions = (⌈(b - a) / c⌉, ⌈(e - d) / f⌉) ∧
    1 ≤ g.nx ∧ 1 ≤ g.ny ∧
    (g.get_num_cells : Int) = g.nx * g.ny := by
  obtain ⟨-, -, -, -, -, -, hnx, hny, -, -⟩ := GridIndex2D.mk_ok_fields h
  obtain ⟨h1, h2, h3⟩ := GridIndex2D.WF_mk h
  refine ⟨?_, h1, h2, ?_⟩
  · unfold GridIndex2D.get_dimensions
    rw [hnx, hny]
  · unfold GridIndex2D.get_num_cells
    rw [h3]
    have : (0 : Int) ≤ g.nx * g.ny := mul_nonneg (by omega) (by omega)
    omega

/-- C5, witness: the `[0,10)²` step-1 grid has dimensions (10, 10) and 100
cells. -/
theorem C5_witness :
    mkGridIndex2D 0 10 1 0 10 1 = .ok g10 ∧
    g10.get_dimensions = (10, 10) ∧
    (g10.get_num_cells : Int) = g10.nx * g10.ny := by
  have hmk : mkGridIndex2D 0 10 1 0 10 1 = .ok g10 := rfl
  exact ⟨hmk, by decide, (C5_dimensions_and_cells 0 10 1 0 10 1 g10 hmk).2.2.2⟩

/-- C6: `insert` never fails; it appends the identifier to exactly the
bucket at the clamped cell of the coordinates, grows that bucket by one
entry, leaves every other bucket unchanged, and keeps the bucket count
fixed; consequently, after any sequence of `N` insertions into a freshly
constructed grid (duplicates and out-of-bounds coordinates included),
`count_points()` equals `N`. -/
theorem C6_insert_one_bucket (g : GridIndex2D) (hg : g.WF) (x y : ℚ) (idx : Nat)
    (a b c d e f : ℚ) (g0 : GridIndex2D)
    (h0 : mkGridIndex2D a b c d e f = .ok g0) (pts : List (ℚ × ℚ × Nat)) :
    (g.insert x y idx).grid.getD
        (g.get_cell_id (g.get_cell_x x) (g.get_cell_y y)).toNat [] =
      g.grid.getD (g.get_cell_id (g.get_cell_x x) (g.get_cell_y y)).toNat [] ++ [idx] ∧
    (∀ m : Nat, m ≠ (g.get_cell_id (g.get_cell_x x) (g.get_cell_y y)).toNat →
      (g.insert x y idx).grid.getD m [] = g.grid.getD m []) ∧
    (g.insert x y idx).grid.length = g.grid.length ∧
    (g.insert x y idx).get_num_points = g.get_num_points + 1 ∧
    (insertAll g0 pts).get_num_points = pts.length := by
  refine ⟨?_, ?_, ?_, GridIndex2D.get_num_points_insert g hg x y idx, ?_⟩
  · exact appendAt_getD_same _ _ _ (GridIndex2D.insert_pos_valid hg x y)
  · intro m hm
    exact appendAt_getD_ne _ _ _ _ hm
  · exact appendAt_length _ _ _
  · rw [get_num_points_insertAll pts g0 (GridIndex2D.WF_mk h0),
        GridIndex2D.get_num_points_mk h0]
    omega

/-- C6, witness: inserting three points (one duplicate) into the fresh
`[0,10)²` grid yields `count_points() = 3`, and a single insert grows the
count by one. -/
theorem C6_witness :
    g10.WF ∧ mkGridIndex2D 0 10 1 0 10 1 = .ok g10 ∧
    (g10.insert 5 5 0).get_num_points = g10.get_num_points + 1 ∧
    (insertAll g10 [(5, 5, 0), (6, 6, 1), (5, 5, 0)]).get_num_points = 3 := by
  have hwf : g10.WF := by decide
  have hmk : mkGridIndex2D 0 10 1 0 10 1 = .ok g10 := rfl
  have h := C6_insert_one_bucket g10 hwf 5 5 0 0 10 1 0 10 1 g10 hmk
    [(5, 5, 0), (6, 6, 1), (5, 5, 0)]
  exact ⟨hwf, hmk, h.2.2.2.1, h.2.2.2.2⟩

/-- C7: after `clear()`, the point count is zero, every query variant
returns an empty result for every rectangle and flag combination, and the
dimensions and bounds are unchanged. -/
theorem C7_clear_frame (g : GridIndex2D) (x1 x2 y1 y2 : ℚ) (im ix : Bool)
    (res : List Nat) :
    g.clear.get_num_points = 0 ∧
    g.clear.query_box x1 x2 y1 y2 im ix = [] ∧
    g.clear.query_box_no_alloc x1 x2 y1 y2 res false im ix = [] ∧
    g.clear.query_box_callback x1 x2 y1 y2 (fun acc i => acc ++ [i])
      ([] : List Nat) im ix = [] ∧
    g.clear.get_dimensions = g.get_dimensions ∧
    g.clear.get_bounds = g.get_bounds := by
  have hq := GridIndex2D.query_box_clear g x1 x2 y1 y2 im ix
  refine ⟨GridIndex2D.get_num_points_clear g, hq, ?_, ?_, rfl, rfl⟩
  · rw [GridIndex2D.query_box_no_alloc_eq, hq]
    rfl
  · rw [GridIndex2D.query_box_callback_eq, hq]
    rfl

/-- C8: swapping a query rectangle's corners — both axes together or either
axis individually — yields the identical result from every query variant. -/
theorem C8_swapped_corners (g : GridIndex2D) (x1 x2 y1 y2 : ℚ) (im ix ap : Bool)
    (res : List Nat) {β : Type} (cb : β → Nat → β) (init : β) :
    (g.query_box x2 x1 y2 y1 im ix = g.query_box x1 x2 y1 y2 im ix ∧
     g.query_box x2 x1 y1 y2 im ix = g.query_box x1 x2 y1 y2 im ix ∧
     g.query_box x1 x2 y2 y1 im ix = g.query_box x1 x2 y1 y2 im ix) ∧
    (g.query_box_no_alloc x2 x1 y2 y1 res ap im ix =
       g.query_box_no_alloc x1 x2 y1 y2 res ap im ix ∧
     g.query_box_no_alloc x2 x1 y1 y2 res ap im ix =
       g.query_box_no_alloc x1 x2 y1 y2 res ap im ix ∧
     g.query_box_no_alloc x1 x2 y2 y1 res ap im ix =
       g.query_box_no_alloc x1 x2 y1 y2 res ap im ix) ∧
    (g.query_box_callback x2 x1 y2 y1 cb init im ix =
       g.query_box_callback x1 x2 y1 y2 cb init im ix ∧
     g.query_box_callback x2 x1 y1 y2 cb init im ix =
       g.query_box_callback x1 x2 y1 y2 cb init im ix ∧
     g.query_box_callback x1 x2 y2 y1 cb init im ix =
       g.query_box_callback x1 x2 y1 y2 cb init im ix) := by
  have hx := GridIndex2D.get_cell_range_swap_x g x1 x2 y1 y2 im ix
  have hy := GridIndex2D.get_cell_range_swap_y g x1 x2 y1 y2 im ix
  have hxy : g.get_cell_range x2 x1 y2 y1 im ix =
      g.get_cell_range x1 x2 y1 y2 im ix :=
    (GridIndex2D.get_cell_range_swap_x g x1 x2 y2 y1 im ix).trans
      (GridIndex2D.get_cell_range_swap_y g x1 x2 y1 y2 im ix)
  refine ⟨⟨?_, ?_, ?_⟩, ⟨?_, ?_, ?_⟩, ⟨?_, ?_, ?_⟩⟩
  · unfold GridIndex2D.query_box
    rw [hxy]
  · unfold GridIndex2D.query_box
    rw [hx]
  · unfold GridIndex2D.query_box
    rw [hy]
  · unfold GridIndex2D.query_box_no_alloc
    rw [hxy]
  · unfold GridIndex2D.query_box_no_alloc
    rw [hx]
  · unfold GridIndex2D.query_box_no_alloc
    rw [hy]
  · unfold GridIndex2D.query_box_callback
    rw [hxy]
  · unfold GridIndex2D.query_box_callback
    rw [hx]
  · unfold GridIndex2D.query_box_callback
    rw [hy]

/-- C9: for every well-formed grid and arbitrary query parameters, every
cell `(i, j)` visited by the query loops has a flat index `j*nx + i` that is
nonnegative and within the bucket array — no query reads outside it. -/
theorem C9_accesses_in_bounds (g : GridIndex2D) (hg : g.WF) (x1 x2 y1 y2 : ℚ)
    (im ix : Bool) (i j : Int)
    (hi : i ∈ intRange (g.get_cell_range x1 x2 y1 y2 im ix).1.1
                       (g.get_cell_range x1 x2 y1 y2 im ix).1.2)
    (hj : j ∈ intRange (g.get_cell_range x1 x2 y1 y2 im ix).2.1
                       (g.get_cell_range x1 x2 y1 y2 im ix).2.2) :
    0 ≤ g.get_cell_id i j ∧ (g.get_cell_id i j).toNat < g.grid.length := by
  obtain ⟨hi1, hi2⟩ := mem_intRange.mp hi
  obtain ⟨hj1, hj2⟩ := mem_intRange.mp hj
  obtain ⟨bx0, -, -, bx3⟩ :=
    GridIndex2D.axis_cell_range_bounds g.x_start g.x_step g.nx hg.1 x1 x2 im ix
  obtain ⟨by0, -, -, by3⟩ :=
    GridIndex2D.axis_cell_range_bounds g.y_start g.y_step g.ny hg.2.1 y1 y2 im ix
  exact GridIndex2D.get_cell_id_valid hg (le_trans bx0 hi1) (le_trans hi2 bx3)
    (le_trans by0 hj1) (le_trans hj2 by3)

/-- C9, witness: on the `[0,10)²` grid the visited cell (0, 0) of the query
`[0,1]×[0,1]` maps to a valid bucket position. -/
theorem C9_witness :
    g10.WF ∧ 0 ≤ g10.get_cell_id 0 0 ∧
    (g10.get_cell_id 0 0).toNat < g10.grid.length := by
  have h := C9_accesses_in_bounds g10 (by decide) 0 1 0 1 true true 0 0
    (by decide) (by decide)
  exact ⟨by decide, h.1, h.2⟩
